import Mathlib

/-!
Verification of the PDF COS reader of this repository
(`src/pyte/backend/pdf/reader.py`) against its natural-language
specification.

The reader operates on a seekable byte stream.  We embed the stream as a
`List Nat` of byte values together with an explicit cursor position; each
Python `file.read(1)` becomes `read1`, and `file.seek(-1, SEEK_CUR)`
becomes subtracting one from the cursor.  A `read` past the end of input
returns the empty byte string `b""` in Python, which we embed as `none`.

Two Python facts matter throughout and are embedded explicitly:

* membership of a read result in a bytes constant (`char in WHITESPACE`,
  `char in DELIMITERS + WHITESPACE`, `char in escape_chars`) is a
  *substring* test, so the empty read `b""` is a member of every bytes
  constant; `inBytes none s = true` reflects this;
* loops whose guard can stay true forever (for example `eat_whitespace`
  reading `b""` at end of input, which tests as whitespace) are embedded
  with an explicit fuel parameter; exhausted fuel is the `none` /
  `.nofuel` result and stands for non-termination of the source loop.

The constants `WHITESPACE` and `DELIMITERS` and the one-byte class
markers live in the `cos` module, which is not part of the sources given;
their values are modelled from the spec (whitespace is NUL, HT, LF, FF,
CR, SP; the delimiters are the ten PDF delimiter bytes) and they are
bytes objects, as forced by the concatenation `cos.DELIMITERS +
cos.WHITESPACE` in the reader.
-/

namespace Pdf

/-- One byte read from the stream: the byte at `pos` and the new cursor.
Past the end of input, Python `read(1)` returns `b""` (here `none`) and
leaves the cursor unchanged. -/
def read1 (input : List Nat) (pos : Nat) : Option Nat × Nat :=
  match input[pos]? with
  | some c => (some c, pos + 1)
  | none => (none, pos)

/-- The bytes of a read result: `b""` contributes nothing. -/
def optToList : Option Nat → List Nat
  | none => []
  | some c => [c]

/-- Python `in` on a bytes object, applied to the result of `read(1)`:
a one-byte string is a member iff its byte occurs, and the empty string
`b""` is a substring of everything, hence always a member. -/
def inBytes (c : Option Nat) (s : List Nat) : Bool :=
  match c with
  | none => true
  | some b => s.contains b

/-- Modelled from the spec: `cos.WHITESPACE = b"\x00\t\n\x0c\r "`
(NUL, HT, LF, FF, CR, SP). -/
def WHITESPACE : List Nat := [0, 9, 10, 12, 13, 32]

/-- Modelled from the spec: `cos.DELIMITERS`, the ten PDF delimiter
bytes of `b"()<>[]\x7b\x7d/%"`. -/
def DELIMITERS : List Nat := [40, 41, 60, 62, 91, 93, 123, 125, 47, 37]

/-- `cos.DELIMITERS + cos.WHITESPACE`, as concatenated in `next_token`
and `read_name`. -/
def delimWs : List Nat := DELIMITERS ++ WHITESPACE

/-- The byte class `b"+-.0123456789"` accepted by `read_number`. -/
def numericChars : List Nat := [43, 45, 46, 48, 49, 50, 51, 52, 53, 54, 55, 56, 57]

/-- `PDFReader.eat_whitespace`: read until a byte outside `WHITESPACE`,
then push that byte back with `seek(-1)`.  Returns the new cursor, or
`none` when fuel runs out; at end of input the empty read tests as
whitespace, so the source loop never terminates there. -/
def eat_whitespace : Nat → List Nat → Nat → Option Nat
  | 0, _, _ => none
  | fuel + 1, input, pos =>
    let r := read1 input pos
    if inBytes r.1 WHITESPACE then eat_whitespace fuel input r.2
    else some (r.2 - 1)

/-- `PDFReader.jump_to_next_line`: consume up to and including the next
LF, or CR with an optional LF (a non-LF byte after a CR is pushed back).
Returns the new cursor; at end of input the empty read matches neither
branch, so the source loop never terminates there. -/
def jump_to_next_line : Nat → List Nat → Nat → Option Nat
  | 0, _, _ => none
  | fuel + 1, input, pos =>
    let r := read1 input pos
    if r.1 = some 10 then some r.2
    else if r.1 = some 13 then
      let r2 := read1 input r.2
      if r2.1 = some 10 then some r2.2 else some (r2.2 - 1)
    else jump_to_next_line fuel input r.2

/-- The accumulation loop of `PDFReader.next_token`: grow the token until
a delimiter or whitespace byte, which is pushed back.  The empty read at
end of input also ends the loop, and its `seek(-1)` then moves the cursor
one byte *before* end of input. -/
def next_token_loop : Nat → List Nat → Nat → List Nat → Option (List Nat × Nat)
  | 0, _, _, _ => none
  | fuel + 1, input, pos, token =>
    let r := read1 input pos
    if inBytes r.1 delimWs then some (token, r.2 - 1)
    else next_token_loop fuel input r.2 (token ++ optToList r.1)

/-- `PDFReader.next_token`.  A `<` or `>` doubles to `<<` or `>>` when
repeated (otherwise the second byte is pushed back); any other delimiter
or whitespace byte is itself the token; the empty read at end of input
satisfies the delimiter-or-whitespace membership test and is returned as
an empty token; otherwise bytes accumulate via `next_token_loop`. -/
def next_token (fuel : Nat) (input : List Nat) (pos : Nat) : Option (List Nat × Nat) :=
  let r := read1 input pos
  match r.1 with
  | none => some ([], r.2)
  | some c =>
    if c = 60 ∨ c = 62 then
      let r2 := read1 input r.2
      if r2.1 = some c then some ([c, c], r2.2)
      else some ([c], r2.2 - 1)
    else if delimWs.contains c then some ([c], r.2)
    else next_token_loop fuel input r.2 [c]

/-- The digit-collecting loop of `PDFReader.read_number`: grow the string
while bytes belong to `b"+-.0123456789"`; the first other byte is pushed
back.  The empty read at end of input is a member of the class, so the
source loop never terminates there. -/
def read_number_loop : Nat → List Nat → Nat → List Nat → Option (List Nat × Nat)
  | 0, _, _, _ => none
  | fuel + 1, input, pos, acc =>
    let r := read1 input pos
    if inBytes r.1 numericChars then read_number_loop fuel input r.2 (acc ++ optToList r.1)
    else some (acc, r.2 - 1)

/-- ASCII decimal digit. -/
def isDigitByte (c : Nat) : Bool := 48 ≤ c ∧ c ≤ 57

/-- Python `bytes.isdigit` on the result of `read(1)`: false for `b""`. -/
def isDigitOpt : Option Nat → Bool
  | none => false
  | some c => isDigitByte c

/-- Python whitespace stripped by `intiger` and `float` conversion. -/
def isPyWs (c : Nat) : Bool := c = 32 ∨ c = 9 ∨ c = 10 ∨ c = 13 ∨ c = 11 ∨ c = 12

/-- Strip leading and trailing Python whitespace. -/
def pyStrip (s : List Nat) : List Nat :=
  ((s.dropWhile isPyWs).reverse.dropWhile isPyWs).reverse

/-- Decimal value of a digit string. -/
def digitsVal (ds : List Nat) : Nat := ds.foldl (fun a d => 10 * a + (d - 48)) 0

/-- Python `int(bytes)` after stripping: an optional sign followed by at
least one decimal digit; anything else raises `ValueError` (`none`). -/
def pyIntCore (s : List Nat) : Option Int :=
  match s with
  | [] => none
  | 43 :: rest =>
    if rest ≠ [] ∧ rest.all isDigitByte then some (digitsVal rest) else none
  | 45 :: rest =>
    if rest ≠ [] ∧ rest.all isDigitByte then some (-(digitsVal rest : Int)) else none
  | _ => if s.all isDigitByte then some (digitsVal s) else none

/-- Python `int(bytes)`. -/
def pyInt (s : List Nat) : Option Int := pyIntCore (pyStrip s)

/-- Python `float(bytes)` restricted to the byte class `b"+-.0123456789"`
collected by `read_number`: an optional sign, then digits and at most one
dot, with at least one digit.  `true` iff conversion succeeds. -/
def pyFloatValid (s : List Nat) : Bool :=
  let t := pyStrip s
  let u := match t with
    | 43 :: r => r
    | 45 :: r => r
    | _ => t
  u ≠ [] ∧ u.all (fun c => isDigitByte c ∨ c = 46) ∧
    (u.filter (fun c => c = 46)).length ≤ 1 ∧ u.any isDigitByte

/-- Errors raised by the reader.  `valueError` covers Python
`ValueError` (and its subclass `binascii.Error`); `structError` is
`struct.error` from `struct.pack`; `encodeError` is the
`UnicodeEncodeError` possible in `read_name`. -/
inductive PErr where
  | valueError
  | structError
  | encodeError
deriving DecidableEq

/-- Result of a parsing step: a value with the new cursor, a raised
exception, a branch outside the modelled fragment, or exhausted fuel
(standing for a source loop that does not terminate). -/
inductive PRes (α : Type) where
  | ok (a : α) (pos : Nat)
  | err (e : PErr)
  | unmodelled
  | nofuel
deriving DecidableEq

/-- COS values produced by the modelled part of `next_item`.  A `real`
keeps the digit string read from the file (its numeric value is never
consulted by the reader).  Arrays and dictionaries are parsed by
`read_array` and `read_dictionary_or_stream`, which recurse into
`next_item` and the stream, filter-registry and type-registry machinery;
no claim exercises them and their branches answer `.unmodelled`. -/
inductive Cos where
  | null
  | boolean (b : Bool)
  | integer (n : Int)
  | real (numeral : List Nat)
  | string (bs : List Nat)
  | hexString (bs : List Nat)
  | name (bs : List Nat)
  | reference (ident gen : Int)
deriving DecidableEq

/-- `PDFReader.read_number`: skip whitespace, collect bytes of
`b"+-.0123456789"`, then try `cos.Integer` (Python `int`) and fall back
to `cos.Real` (Python `float`); both failing raises `ValueError`. -/
def read_number (fuel : Nat) (input : List Nat) (pos : Nat) : PRes Cos :=
  match eat_whitespace fuel input pos with
  | none => .nofuel
  | some p1 =>
    match read_number_loop fuel input p1 [] with
    | none => .nofuel
    | some (s, p2) =>
      match pyInt s with
      | some n => .ok (.integer n) p2
      | none => if pyFloatValid s then .ok (.real s) p2 else .err .valueError

/-- `PDFReader.escape_chars = b"nrtbf()\\"`. -/
def escapeChars : List Nat := [110, 114, 116, 98, 102, 40, 41, 92]

/-- The up-to-two extra octal digits gathered after `\d` in
`read_string`: each non-digit (including the empty read at end of input)
is pushed back with `seek(-1)`. -/
def octal_extras (input : List Nat) (pos : Nat) : List Nat × Nat :=
  let r1 := read1 input pos
  if isDigitOpt r1.1 then
    let r2 := read1 input r1.2
    if isDigitOpt r2.1 then (optToList r1.1 ++ optToList r2.1, r2.2)
    else (optToList r1.1, r2.2 - 1)
  else ([], r1.2 - 1)

/-- Python `int(s, 8)` on a digit string collected by `bytes.isdigit`:
all digits must be octal, else `ValueError`. -/
def pyIntOctal (s : List Nat) : Option Nat :=
  if s ≠ [] ∧ s.all (fun c => 48 ≤ c ∧ c ≤ 55) then
    some (s.foldl (fun a d => 8 * a + (d - 48)) 0)
  else none

/-- The loop of `PDFReader.read_string`, with the accumulated bytes, the
`escape` flag and the parenthesis depth as explicit state.

In escape state: a byte of `escape_chars` is appended *itself* (the
empty read is a member too and appends nothing); LF is dropped; CR reads
one more byte and always pushes it back (the source compares that byte
to the *str* `"\n"`, which no bytes value equals); a decimal digit
starts an octal escape, `int(char, 8)` raising `ValueError` on digits 8
and 9 and `struct.pack("B", value)` raising `struct.error` above 255;
any other byte is appended after a literal backslash.

Outside escape state: backslash enters escape state; an unescaped `(`
raises the depth and an unescaped `)` at positive depth lowers it, in
both cases *without* appending the byte; `)` at depth zero ends the
string; every other byte (and the empty read, which appends nothing) is
accumulated, so an unterminated string loops forever at end of input. -/
def read_string_loop : Nat → List Nat → Nat → List Nat → Bool → Nat → PRes (List Nat)
  | 0, _, _, _, _, _ => .nofuel
  | fuel + 1, input, pos, acc, escape, level =>
    let r := read1 input pos
    if escape then
      match r.1 with
      | none => read_string_loop fuel input r.2 acc false level
      | some c =>
        if escapeChars.contains c then
          read_string_loop fuel input r.2 (acc ++ [c]) false level
        else if c = 10 then
          read_string_loop fuel input r.2 acc false level
        else if c = 13 then
          let r2 := read1 input r.2
          read_string_loop fuel input (r2.2 - 1) acc false level
        else if isDigitByte c then
          let (extras, p2) := octal_extras input r.2
          match pyIntOctal (c :: extras) with
          | none => .err .valueError
          | some v =>
            if v ≤ 255 then read_string_loop fuel input p2 (acc ++ [v]) false level
            else .err .structError
        else
          read_string_loop fuel input r.2 (acc ++ [92, c]) false level
    else
      match r.1 with
      | some 92 => read_string_loop fuel input r.2 acc true level
      | some 40 => read_string_loop fuel input r.2 acc false (level + 1)
      | some 41 =>
        if level > 0 then read_string_loop fuel input r.2 acc false (level - 1)
        else .ok acc r.2
      | none => read_string_loop fuel input r.2 acc false level
      | some c => read_string_loop fuel input r.2 (acc ++ [c]) false level

/-- `PDFReader.read_string`, entered just after the opening `(`. -/
def read_string (fuel : Nat) (input : List Nat) (pos : Nat) : PRes (List Nat) :=
  read_string_loop fuel input pos [] false 0

/-- Value of an ASCII hex digit. -/
def hexDigitVal (c : Nat) : Option Nat :=
  if 48 ≤ c ∧ c ≤ 57 then some (c - 48)
  else if 65 ≤ c ∧ c ≤ 70 then some (c - 55)
  else if 97 ≤ c ∧ c ≤ 102 then some (c - 87)
  else none

/-- `binascii.unhexlify`: pairs of hex digits to bytes; an odd length or
a non-hex byte raises (`binascii.Error`, a `ValueError`). -/
def unhexlify : List Nat → Option (List Nat)
  | [] => some []
  | [_] => none
  | a :: b :: rest =>
    match hexDigitVal a, hexDigitVal b with
    | some x, some y => (unhexlify rest).map (fun t => (16 * x + y) :: t)
    | _, _ => none

/-- The zero-nibble padding `read_hex_string` applies to an odd-length
hex string before decoding. -/
def padEven (s : List Nat) : List Nat :=
  if s.length % 2 = 1 then s ++ [48] else s

/-- The loop of `PDFReader.read_hex_string`: skip whitespace, accumulate
bytes until `>`, then pad and decode. -/
def read_hex_string_loop : Nat → List Nat → Nat → List Nat → PRes (List Nat)
  | 0, _, _, _ => .nofuel
  | fuel + 1, input, pos, acc =>
    match eat_whitespace fuel input pos with
    | none => .nofuel
    | some p1 =>
      let r := read1 input p1
      if r.1 = some 62 then
        match unhexlify (padEven acc) with
        | some bs => .ok bs r.2
        | none => .err .valueError
      else read_hex_string_loop fuel input r.2 (acc ++ optToList r.1)

/-- `PDFReader.read_hex_string`, entered just after the opening `<`. -/
def read_hex_string (fuel : Nat) (input : List Nat) (pos : Nat) : PRes (List Nat) :=
  read_hex_string_loop fuel input pos []

/-- The loop of `PDFReader.read_name`: accumulate until a delimiter or
whitespace byte (pushed back; the empty read at end of input also ends
the loop with a pushback); `#` reads two bytes as a hex code, raising
`ValueError` when they do not parse and `UnicodeEncodeError` when the
value exceeds ASCII. -/
def read_name_loop : Nat → List Nat → Nat → List Nat → PRes (List Nat)
  | 0, _, _, _ => .nofuel
  | fuel + 1, input, pos, acc =>
    let r := read1 input pos
    if inBytes r.1 delimWs then .ok acc (r.2 - 1)
    else
      match r.1 with
      | some 35 =>
        let r1 := read1 input r.2
        let r2 := read1 input r1.2
        match optToList r1.1 ++ optToList r2.1 with
        | [a, b] =>
          match hexDigitVal a, hexDigitVal b with
          | some x, some y =>
            if 16 * x + y ≤ 127 then read_name_loop fuel input r2.2 (acc ++ [16 * x + y])
            else .err .encodeError
          | _, _ => .err .valueError
        | [a] =>
          match hexDigitVal a with
          | some x =>
            if x ≤ 127 then read_name_loop fuel input r2.2 (acc ++ [x])
            else .err .encodeError
          | none => .err .valueError
        | _ => .err .valueError
      | some c => read_name_loop fuel input r.2 (acc ++ [c])
      | none => .ok acc (r.2 - 1)

/-- `PDFReader.read_name`, entered just after the `/`. -/
def read_name (fuel : Nat) (input : List Nat) (pos : Nat) : PRes (List Nat) :=
  read_name_loop fuel input pos []

/-- `PDFReader.next_item`: skip whitespace, remember the position, take a
token and dispatch on it.  The number-or-reference branch seeks back,
reads a number, and when it is an integer *speculatively* reads a second
number, whitespace and a token: a second integer followed by the token
`R` becomes a `Reference`; any other outcome (a `ValueError` from the
second number included) restores the cursor to just after the first
number and keeps the plain integer. -/
def next_item (fuel : Nat) (input : List Nat) (pos : Nat) : PRes Cos :=
  match eat_whitespace fuel input pos with
  | none => .nofuel
  | some p0 =>
    match next_token fuel input p0 with
    | none => .nofuel
    | some (tok, p1) =>
      if tok = [40] then
        match read_string fuel input p1 with
        | .ok s p2 => .ok (.string s) p2
        | .err e => .err e
        | .unmodelled => .unmodelled
        | .nofuel => .nofuel
      else if tok = [60] then
        match read_hex_string fuel input p1 with
        | .ok s p2 => .ok (.hexString s) p2
        | .err e => .err e
        | .unmodelled => .unmodelled
        | .nofuel => .nofuel
      else if tok = [91] then
        .unmodelled
      else if tok = [47] then
        match read_name fuel input p1 with
        | .ok s p2 => .ok (.name s) p2
        | .err e => .err e
        | .unmodelled => .unmodelled
        | .nofuel => .nofuel
      else if tok = [60, 60] then
        .unmodelled
      else if tok = [116, 114, 117, 101] then .ok (.boolean true) p1
      else if tok = [102, 97, 108, 115, 101] then .ok (.boolean false) p1
      else if tok = [110, 117, 108, 108] then .ok .null p1
      else
        match read_number fuel input p0 with
        | .ok (.integer n) p2 =>
          (match read_number fuel input p2 with
           | .nofuel => .nofuel
           | .err .valueError => .ok (.integer n) p2
           | .err e => .err e
           | .unmodelled => .unmodelled
           | .ok (.integer m) p3 =>
             (match eat_whitespace fuel input p3 with
              | none => .nofuel
              | some p4 =>
                match next_token fuel input p4 with
                | none => .nofuel
                | some (rt, p5) =>
                  if rt = [82] then .ok (.reference n m) p5
                  else .ok (.integer n) p2)
           | .ok _ _ => .ok (.integer n) p2)
        | other => other

/-! ## Cross-reference tables and the trailer chain -/

/-- Python `dict.update`: `d.update(other)` keeps every entry of `other`
and an entry of `d` only where `other` has none.  Tables are embedded as
partial maps from object identifier to byte offset. -/
def dict_update (d other : Nat → Option Nat) : Nat → Option Nat :=
  fun k =>
    match other k with
    | some v => some v
    | none => d k

/-- The `Prev` branch of `PDFReader.parse_trailer` (lines 274 to 277):
the older table parsed at the `Prev` offset is updated with the current
table and becomes the current table, so entries of the newer generation
are never overwritten by the older one. -/
def parse_trailer_merge (current prev_xref : Nat → Option Nat) : Nat → Option Nat :=
  dict_update prev_xref current

/-- Outcome of one 20-byte record of `PDFReader.parse_xref_table`:
an in-use entry recording its offset, a free entry recording nothing, a
`ValueError` from a field that does not parse as an integer (caught by
the surrounding loop as end of subsections), the failed assertion on a
free generation different from 65535 or on a marker byte that is neither
`n` nor `f`, or an `IndexError` on a record shorter than 18 bytes. -/
inductive RecOutcome where
  | entry (address : Int)
  | free
  | valueError
  | assertError
  | indexError
deriving DecidableEq

/-- One record of `PDFReader.parse_xref_table`: byte 17 is `n` (110) for
in-use, in which case `int(line[:10])` and `int(line[11:16])` are both
evaluated and the offset is recorded, or `f` (102) for free, in which
case the generation must read as exactly 65535 and nothing is recorded;
any other marker fails the assertion. -/
def parse_xref_record (row : List Nat) : RecOutcome :=
  match row[17]? with
  | none => .indexError
  | some b17 =>
    if b17 = 110 then
      match pyInt (row.take 10), pyInt ((row.drop 11).take 5) with
      | some a, some _ => .entry a
      | _, _ => .valueError
    else if b17 = 102 then
      match pyInt ((row.drop 11).take 5) with
      | none => .valueError
      | some g => if g = 65535 then .free else .assertError
    else .assertError

/-- Outcome of the record loop of `parse_xref_table`. -/
inductive XrefTableOutcome where
  | ok (entries : List (Nat × Int))
  | assertError
  | indexError
deriving DecidableEq

/-- The record loop of `PDFReader.parse_xref_table` over one subsection
starting at identifier `first`: in-use entries are recorded in order, a
`ValueError` breaks the loop returning what was accumulated (the reader
treats it as the natural end of the subsections), and a failed assertion
or `IndexError` propagates. -/
def parse_xref_records : Nat → List (List Nat) → List (Nat × Int) → XrefTableOutcome
  | _, [], acc => .ok acc
  | i, row :: rest, acc =>
    match parse_xref_record row with
    | .entry a => parse_xref_records (i + 1) rest (acc ++ [(i, a)])
    | .free => parse_xref_records (i + 1) rest acc
    | .valueError => .ok acc
    | .assertError => .assertError
    | .indexError => .indexError

/-! ## The cross-reference stream path -/

/-- Outcome of `PDFReader.parse_xref_stream`.  The source builds an
empty `xref` dict, loops over the `Index` ranges printing each decoded
record, never stores anything, asserts that the last identifier plus one
equals `Size`, and then executes `import sys; sys.exit()`: the
constructor `table` exists only to state that it is never produced. -/
inductive XrefStreamOutcome where
  | table (entries : List (Nat × Nat))
  | sysExit
  | error
deriving DecidableEq

/-- The identifier left bound by the record loop of
`parse_xref_stream`: the last identifier of the last non-empty
`(first, total)` range of `Index`; `none` when every range is empty, in
which case `identifier` keeps its binding from the earlier tuple
unpacking `identifier, xref_stream = self.parse_indirect_object(...)`
(the stream object's own header identifier), a value unrelated to the
table contents. -/
def last_record_identifier (index : List (Nat × Nat)) : Option Nat :=
  index.foldl (fun acc p => if p.2 > 0 then some (p.1 + p.2 - 1) else acc) none

/-- `PDFReader.parse_xref_stream` after the stream object has been
materialized, over the `Index` ranges and the `Size` entry.  `readsOk`
abstracts the success of the predictor-decoded reads and the one-byte
unpacks inside the loop (`struct.unpack(">B", ...)` raises whenever a
field width differs from one); the loop itself only prints.  Control
then reaches the assertion and, when it holds, `sys.exit()`: no table is
ever returned to `parse_trailer`.  The all-empty-`Index` corner, where
the assertion instead tests the stream object's own header identifier,
is folded into `.error`; the source could also reach `sys.exit()` there,
and either outcome lies inside the theorem's disjunction. -/
def parse_xref_stream (index : List (Nat × Nat)) (size : Nat) (readsOk : Bool) :
    XrefStreamOutcome :=
  if readsOk = false then .error
  else
    match last_record_identifier index with
    | none => .error
    | some last => if last + 1 = size then .sysExit else .error

/-! ## Indirect objects and the document object cache -/

/-- Lookup in an association list, the embedding of a Python dict keyed
by object identifier. -/
def alist_lookup {α : Type} : List (Nat × α) → Nat → Option α
  | [], _ => none
  | (k, v) :: rest, i => if k = i then some v else alist_lookup rest i

/-- Deletion from an association list. -/
def alist_remove {α : Type} (l : List (Nat × α)) (i : Nat) : List (Nat × α) :=
  l.filter (fun p => p.1 != i)

/-- Outcome of `PDFReader.parse_indirect_object`: the parsed header
identifier with the object and the final (restored) cursor, a failed
`assert` on the `obj` or `endobj` keyword, a propagated exception, a
branch outside the modelled fragment, or exhausted fuel. -/
inductive IndirectOutcome where
  | ok (identifier : Int) (obj : Cos) (pos : Nat)
  | assertError
  | raised (e : PErr)
  | unmodelled
  | nofuel
deriving DecidableEq

/-- Python `int(x)` applied to the `cos.Integer` or `cos.Real` returned
by `read_number`: an integer is itself; a float truncates toward zero,
embedded as the value of the digits before the dot of the numeral read
from the file (`read_number` validated the numeral, and exactness of
the float is immaterial at cross-reference magnitudes).  Other values
never reach this conversion in the source. -/
def cosNumToInt : Cos → Option Int
  | .integer n => some n
  | .real s =>
    match pyStrip s with
    | 45 :: r => some (-(digitsVal (r.takeWhile isDigitByte) : Int))
    | 43 :: r => some ((digitsVal (r.takeWhile isDigitByte) : Int))
    | t => some ((digitsVal (t.takeWhile isDigitByte) : Int))
  | _ => none

/-- `PDFReader.parse_indirect_object` (reader.py lines 287 to 302):
remember the cursor, seek to `address`, read the identifier and
generation numbers (a `ValueError` from either propagates), skip
whitespace, assert the `obj` keyword, skip whitespace, parse one item
(exceptions propagate), skip whitespace, assert the `endobj` keyword,
then seek back to the remembered cursor and return the identifier with
the object: a successful parse always ends at `restorePos`. -/
def parse_indirect_object (fuel : Nat) (input : List Nat)
    (restorePos address : Nat) : IndirectOutcome :=
  match read_number fuel input address with
  | .err e => .raised e
  | .unmodelled => .unmodelled
  | .nofuel => .nofuel
  | .ok v1 p1 =>
    match cosNumToInt v1 with
    | none => .unmodelled
    | some identifier =>
      match read_number fuel input p1 with
      | .err e => .raised e
      | .unmodelled => .unmodelled
      | .nofuel => .nofuel
      | .ok v2 p2 =>
        match cosNumToInt v2 with
        | none => .unmodelled
        | some _generation =>
          match eat_whitespace fuel input p2 with
          | none => .nofuel
          | some p3 =>
            match next_token fuel input p3 with
            | none => .nofuel
            | some (tok, p4) =>
              if tok = [111, 98, 106] then
                match eat_whitespace fuel input p4 with
                | none => .nofuel
                | some p5 =>
                  match next_item fuel input p5 with
                  | .err e => .raised e
                  | .unmodelled => .unmodelled
                  | .nofuel => .nofuel
                  | .ok obj p6 =>
                    match eat_whitespace fuel input p6 with
                    | none => .nofuel
                    | some p7 =>
                      match next_token fuel input p7 with
                      | none => .nofuel
                      | some (tok2, _p8) =>
                        if tok2 = [101, 110, 100, 111, 98, 106] then
                          .ok identifier obj restorePos
                        else .assertError
              else .assertError

/-- The state a `PDFReader` holds for lazy resolution: the file bytes
and current cursor, the merged cross-reference table (identifier to
byte offset), the cache of materialized objects inherited from
`cos.Document` (modelled from the spec as a plain identifier-to-object
mapping), and a freshness counter.  Python object identity is embedded
by numbering materialized instances: each cache entry stores the
instance number with the parsed value, and `nextInstance` is the number
the next parse will allot, so two accesses return the same instance iff
they return the same number. -/
structure DocState where
  input : List Nat
  pos : Nat
  xref : List (Nat × Nat)
  cache : List (Nat × Nat × Cos)
  nextInstance : Nat
deriving DecidableEq

/-- Outcome of `PDFReader.__getitem__`: the instance number and value
with the updated state, the `KeyError` from `self._xref[identifier]`,
the failed `assert obj_identifier == identifier`, a failure inside
`parse_indirect_object`, or exhausted fuel. -/
inductive GetOutcome where
  | ok (objId : Nat) (obj : Cos) (st : DocState)
  | keyError
  | identifierMismatch
  | parseAssertError
  | raised (e : PErr)
  | unmodelled
  | nofuel
deriving DecidableEq

/-- `PDFReader.__getitem__` (reader.py lines 47 to 55): a cache hit
returns the cached instance and leaves the state unchanged; a miss
looks up the offset (`KeyError` when the identifier is absent from the
table), runs `parse_indirect_object` at it from the current cursor
(failures propagate), asserts that the parsed header identifier equals
the requested one, stores the fresh instance in the cache and returns
it with the cursor as the parse restored it. -/
def doc_get (fuel : Nat) (st : DocState) (ident : Nat) : GetOutcome :=
  match alist_lookup st.cache ident with
  | some (objId, obj) => .ok objId obj st
  | none =>
    match alist_lookup st.xref ident with
    | none => .keyError
    | some address =>
      match parse_indirect_object fuel st.input st.pos address with
      | .ok objIdentifier obj p =>
        if objIdentifier = (ident : Int) then
          .ok st.nextInstance obj
            ⟨st.input, p, st.xref,
             (ident, st.nextInstance, obj) :: st.cache, st.nextInstance + 1⟩
        else .identifierMismatch
      | .assertError => .parseAssertError
      | .raised e => .raised e
      | .unmodelled => .unmodelled
      | .nofuel => .nofuel

/-- Outcome of `PDFReader.__delitem__`. -/
inductive DelOutcome where
  | ok (st : DocState)
  | keyError
deriving DecidableEq

/-- `PDFReader.__delitem__`: `del self._xref[identifier]` raises
`KeyError` for an identifier absent from the table; otherwise the
identifier is removed from the table and then from the cache
(`cos.Document.__delitem__`, modelled from the spec clause that
deletion removes the identifier from both). -/
def doc_del (st : DocState) (ident : Nat) : DelOutcome :=
  match alist_lookup st.xref ident with
  | none => .keyError
  | some _ =>
    .ok ⟨st.input, st.pos, alist_remove st.xref ident,
         alist_remove st.cache ident, st.nextInstance⟩

/-! ## The PNG predictor decoder -/

/-- `paeth_predictor(a, b, c)` of the source: the candidate among left
`a`, above `b` and upper-left `c` closest to `a + b - c`, ties broken in
the order left, above, upper-left. -/
def paeth_predictor (a b c : Nat) : Nat :=
  let p : Int := (a : Int) + (b : Int) - (c : Int)
  let pa := (p - (a : Int)).natAbs
  let pb := (p - (b : Int)).natAbs
  let pc := (p - (c : Int)).natAbs
  if pa ≤ pb ∧ pa ≤ pc then a
  else if pb ≤ pc then b
  else c

/-- The Sub loop of `PNGReconstructor.read_from_source`: each output
byte is the stored byte plus the previous *reconstructed* byte of the
row, mod 256; the left neighbour is seeded with 0. -/
def recon_sub : Nat → List Nat → List Nat
  | _, [] => []
  | a, x :: xs =>
    let v := (x + a) % 256
    v :: recon_sub v xs

/-- The Up loop: each output byte is the stored byte plus the
same-column byte of the previous reconstructed row, mod 256. -/
def recon_up : List Nat → List Nat → List Nat
  | [], _ => []
  | _ :: _, [] => []
  | x :: xs, b :: bs => (x + b) % 256 :: recon_up xs bs

/-- The Average loop: each output byte is the stored byte plus the floor
average of the reconstructed left neighbour and the byte above, mod
256. -/
def recon_average : Nat → List Nat → List Nat → List Nat
  | _, [], _ => []
  | _, _ :: _, [] => []
  | a, x :: xs, b :: bs =>
    let v := (x + (a + b) / 2) % 256
    v :: recon_average v xs bs

/-- The Paeth loop exactly as the source runs it: `recon_a` follows the
reconstructed left neighbour, but `recon_c` is initialized to 0 and
*never updated inside the loop*, so the upper-left argument of
`paeth_predictor` stays 0 across the whole row. -/
def recon_paeth (c : Nat) : Nat → List Nat → List Nat → List Nat
  | _, [], _ => []
  | _, _ :: _, [] => []
  | a, x :: xs, b :: bs =>
    let v := (x + paeth_predictor a b c) % 256
    v :: recon_paeth c v xs bs

/-- One row of `PNGReconstructor.read_from_source`: dispatch on the
predictor tag over the stored row and the previous reconstructed row
(`_last_values`, seeded with zeros).  A tag outside 0 to 4 leaves
`out_row` unbound in the source (`NameError`), embedded as `none`. -/
def png_recon_row (predictor : Nat) (filt last : List Nat) : Option (List Nat) :=
  if predictor = 0 then some filt
  else if predictor = 1 then some (recon_sub 0 filt)
  else if predictor = 2 then some (recon_up filt last)
  else if predictor = 3 then some (recon_average 0 filt last)
  else if predictor = 4 then some (recon_paeth 0 0 filt last)
  else none

/-- Modelled from the spec, for comparison with `png_recon_row`: the
encoder whose output the decoder is specified to invert.  Sub filter:
each stored byte is the original minus the original left neighbour, mod
256. -/
def spec_filter_sub : Nat → List Nat → List Nat
  | _, [] => []
  | a, x :: xs => (x + 256 - a) % 256 :: spec_filter_sub x xs

/-- Modelled from the spec: Up filter. -/
def spec_filter_up : List Nat → List Nat → List Nat
  | [], _ => []
  | _ :: _, [] => []
  | x :: xs, b :: bs => (x + 256 - b) % 256 :: spec_filter_up xs bs

/-- Modelled from the spec: Average filter, the left neighbour seeded
with 0. -/
def spec_filter_average : Nat → List Nat → List Nat → List Nat
  | _, [], _ => []
  | _, _ :: _, [] => []
  | a, x :: xs, b :: bs => (x + 256 - (a + b) / 2) % 256 :: spec_filter_average x xs bs

/-- Modelled from the spec: Paeth filter, predicting from left, above
and the true upper-left neighbour (the upper-left follows the previous
column of the previous row, unlike the decoder of the source). -/
def spec_filter_paeth : Nat → Nat → List Nat → List Nat → List Nat
  | _, _, [], _ => []
  | _, _, _ :: _, [] => []
  | a, c, x :: xs, b :: bs =>
    (x + 256 - paeth_predictor a b c) % 256 :: spec_filter_paeth x b xs bs

/-- Modelled from the spec: one encoded row for a given predictor tag. -/
def spec_filter_row (predictor : Nat) (orig last : List Nat) : Option (List Nat) :=
  if predictor = 0 then some orig
  else if predictor = 1 then some (spec_filter_sub 0 orig)
  else if predictor = 2 then some (spec_filter_up orig last)
  else if predictor = 3 then some (spec_filter_average 0 orig last)
  else if predictor = 4 then some (spec_filter_paeth 0 0 orig last)
  else none

/-! ## Supporting lemmas -/

/-- Sub rows round-trip: the decoder loop inverts the Sub filter for
byte-valued rows.  (The Paeth loop does not enjoy the analogous
property; see the theorem for claim C3.) -/
theorem recon_sub_inverts (xs : List Nat) :
    ∀ a, a < 256 → (∀ x ∈ xs, x < 256) → recon_sub a (spec_filter_sub a xs) = xs := by
  induction xs with
  | nil => intro a _ _; rfl
  | cons x xs ih =>
    intro a ha hxs
    have hx : x < 256 := hxs x (by simp)
    have hv : ((x + 256 - a) % 256 + a) % 256 = x := by omega
    simp only [spec_filter_sub, recon_sub, hv, List.cons.injEq, true_and]
    exact ih x hx (fun y hy => hxs y (by simp [hy]))

/-- Up rows round-trip: the decoder loop inverts the Up filter. -/
theorem recon_up_inverts (xs : List Nat) :
    ∀ bs : List Nat, (∀ x ∈ xs, x < 256) → (∀ b ∈ bs, b < 256) →
      recon_up (spec_filter_up xs bs) bs = xs ∨ bs.length < xs.length := by
  induction xs with
  | nil => intro bs _ _; left; cases bs <;> rfl
  | cons x xs ih =>
    intro bs hxs hbs
    cases bs with
    | nil => right; simp
    | cons b bs =>
      have hx : x < 256 := hxs x (by simp)
      have hb : b < 256 := hbs b (by simp)
      have hv : ((x + 256 - b) % 256 + b) % 256 = x := by omega
      rcases ih bs (fun y hy => hxs y (by simp [hy])) (fun y hy => hbs y (by simp [hy])) with h | h
      · left; simp only [spec_filter_up, recon_up, hv, List.cons.injEq, true_and]; exact h
      · right; simpa using h

/-- Average rows round-trip: the decoder loop inverts the Average
filter (rows of equal length). -/
theorem recon_average_inverts (xs : List Nat) :
    ∀ (a : Nat) (bs : List Nat), a < 256 → (∀ x ∈ xs, x < 256) →
      (∀ b ∈ bs, b < 256) → xs.length = bs.length →
      recon_average a (spec_filter_average a xs bs) bs = xs := by
  induction xs with
  | nil => intro a bs _ _ _ hlen; cases bs <;> simp_all [spec_filter_average, recon_average]
  | cons x xs ih =>
    intro a bs ha hxs hbs hlen
    cases bs with
    | nil => simp at hlen
    | cons b bs =>
      have hx : x < 256 := hxs x (by simp)
      have hb : b < 256 := hbs b (by simp)
      have hv : ((x + 256 - (a + b) / 2) % 256 + (a + b) / 2) % 256 = x := by omega
      simp only [spec_filter_average, recon_average, hv, List.cons.injEq, true_and]
      exact ih x bs hx (fun y hy => hxs y (by simp [hy]))
        (fun y hy => hbs y (by simp [hy])) (by simpa using hlen)

/-! ## The claims -/

/-- C1: when `parse_trailer` merges an older cross-reference table
(reached via `Prev`) into the current one, entries already present in
the newer table are never overwritten: whenever the newer table maps an
identifier to offset A and the older maps it to offset B with A and B
distinct, the merged table maps the identifier to A. -/
theorem C1_prev_merge_newer_wins (current prev_xref : Nat → Option Nat)
    (i A B : Nat) (hNew : current i = some A) (hOld : prev_xref i = some B)
    (hne : A ≠ B) : parse_trailer_merge current prev_xref i = some A := by
  simp [parse_trailer_merge, dict_update, hNew]

/-- Witness for C1 on a concrete two-generation pair of tables: the
newer maps 5 to 100, the older maps 5 to 200, the merge maps 5 to
100. -/
theorem C1_prev_merge_newer_wins_witness :
    parse_trailer_merge (fun k => if k = 5 then some 100 else none)
      (fun k => if k = 5 then some 200 else none) 5 = some 100 :=
  C1_prev_merge_newer_wins _ _ 5 100 200 (by decide) (by decide) (by decide)

/-- C3: the claim asserts that for each of the five predictor tags
encode-then-decode is the identity on rows, with the Paeth prediction
taking the upper-left neighbour.  The source decoder initializes
`recon_c = 0` and never updates it inside the Paeth loop, so the
upper-left argument stays 0 across the row and decoding diverges from
the specified inverse on any previous row where the upper-left matters:
the row [100, 50] Paeth-filtered against previous row [100, 1] stores
deltas [0, 49], which the source decoder reconstructs as [100, 149].
The Sub example of the claim does hold. -/
theorem C3_paeth_roundtrip_fails :
    spec_filter_row 4 [100, 50] [100, 1] = some [0, 49] ∧
    png_recon_row 4 [0, 49] [100, 1] = some [100, 149] ∧
    png_recon_row 4 [0, 49] [100, 1] ≠ some [100, 50] ∧
    png_recon_row 1 [10, 10, 10] [0, 0, 0] = some [10, 20, 30] := by decide

/-- C4: the claim asserts that the `XRefStm` path parses a stream-format
table, merges it and returns a usable merged table.  The source of
`parse_xref_stream` never stores anything in the `xref` dict it creates
and ends in `import sys; sys.exit()` (when its final size assertion does
not raise first), so no invocation produces a table. -/
theorem C4_xref_stream_never_returns_table (index : List (Nat × Nat))
    (size : Nat) (readsOk : Bool) :
    parse_xref_stream index size readsOk = .sysExit ∨
    parse_xref_stream index size readsOk = .error := by
  unfold parse_xref_stream
  by_cases h : readsOk = false
  · simp [h]
  · simp only [h, if_false]
    cases last_record_identifier index with
    | none => simp
    | some last =>
      by_cases h2 : last + 1 = size
      · simp [h2]
      · simp [h2]

set_option maxRecDepth 10000 in
/-- C2: `next_item` disambiguates numbers from indirect references by
speculative backtracking: the input `7 0 R` parsed as a top-level item
yields `Reference(7, 0)`, and `7` followed by any byte that is neither
numeric nor whitespace (in particular any non-numeric, non-`R` token)
yields the plain `Integer(7)` with the cursor restored to the position
immediately after the `7`. -/
theorem C2_reference_backtracking :
    next_item 32 [55, 32, 48, 32, 82] 0 = .ok (.reference 7 0) 4 ∧
    (∀ c : Fin 256, numericChars.contains c.val = false →
      WHITESPACE.contains c.val = false →
      next_item 32 [55, 32, c.val] 0 = .ok (.integer 7) 1) := by decide

/-- Witness for C2 at the concrete follower byte `/` (47): `7 /` yields
`Integer(7)` with the cursor restored to just after the `7`. -/
theorem C2_reference_backtracking_witness :
    next_item 32 [55, 32, 47] 0 = .ok (.integer 7) 1 :=
  C2_reference_backtracking.2 47 (by decide) (by decide)

/-- C5 counterexample: the claim asserts that after `delete` a further
access re-parses from source.  On the concrete file `1 0 obj 42 endobj`
whose table maps identifier 1 to offset 0, starting with the cursor at
3: the first access parses the object at the indexed offset (the header
identifier 1 matches, the cursor is restored to 3) and caches it as
instance 0; the second access returns the same cached instance 0; but
`__delitem__` removes the identifier from the cross-reference table as
well as from the cache, so the access after delete raises `KeyError`
instead of re-parsing (a re-parse would return the fresh instance 1). -/
theorem C5_delete_then_get_counterexample :
    doc_get 32 ⟨[49, 32, 48, 32, 111, 98, 106, 32, 52, 50, 32,
                 101, 110, 100, 111, 98, 106, 10], 3, [(1, 0)], [], 0⟩ 1 =
      .ok 0 (.integer 42)
        ⟨[49, 32, 48, 32, 111, 98, 106, 32, 52, 50, 32,
          101, 110, 100, 111, 98, 106, 10], 3, [(1, 0)], [(1, 0, .integer 42)], 1⟩ ∧
    doc_get 32 ⟨[49, 32, 48, 32, 111, 98, 106, 32, 52, 50, 32,
                 101, 110, 100, 111, 98, 106, 10], 3, [(1, 0)], [(1, 0, .integer 42)], 1⟩ 1 =
      .ok 0 (.integer 42)
        ⟨[49, 32, 48, 32, 111, 98, 106, 32, 52, 50, 32,
          101, 110, 100, 111, 98, 106, 10], 3, [(1, 0)], [(1, 0, .integer 42)], 1⟩ ∧
    doc_del ⟨[49, 32, 48, 32, 111, 98, 106, 32, 52, 50, 32,
              101, 110, 100, 111, 98, 106, 10], 3, [(1, 0)], [(1, 0, .integer 42)], 1⟩ 1 =
      .ok ⟨[49, 32, 48, 32, 111, 98, 106, 32, 52, 50, 32,
            101, 110, 100, 111, 98, 106, 10], 3, [], [], 1⟩ ∧
    doc_get 32 ⟨[49, 32, 48, 32, 111, 98, 106, 32, 52, 50, 32,
                 101, 110, 100, 111, 98, 106, 10], 3, [], [], 1⟩ 1 = .keyError ∧
    doc_get 32 ⟨[49, 32, 48, 32, 111, 98, 106, 32, 52, 50, 32,
                 101, 110, 100, 111, 98, 106, 10], 3, [], [], 1⟩ 1 ≠
      .ok 1 (.integer 42)
        ⟨[49, 32, 48, 32, 111, 98, 106, 32, 52, 50, 32,
          101, 110, 100, 111, 98, 106, 10], 3, [], [(1, 1, .integer 42)], 2⟩ := by decide

/-- Removing an identifier from an association list makes its lookup
fail. -/
theorem alist_lookup_remove {α : Type} (i : Nat) :
    ∀ l : List (Nat × α), alist_lookup (alist_remove l i) i = none := by
  intro l
  induction l with
  | nil => rfl
  | cons p rest ih =>
    rcases p with ⟨k, v⟩
    by_cases h : k = i
    · subst h
      simpa [alist_remove, List.filter_cons, bne_self_eq_false] using ih
    · have hb : (k != i) = true := bne_iff_ne.mpr h
      simpa [alist_remove, List.filter_cons, hb, alist_lookup, h] using ih

/-- A successful `parse_indirect_object` always ends with the cursor
restored to the remembered position (the `seek(restore_pos)` before the
return). -/
theorem parse_indirect_object_restores (fuel : Nat) (input : List Nat)
    (restorePos address : Nat) (i : Int) (obj : Cos) (p : Nat)
    (h : parse_indirect_object fuel input restorePos address = .ok i obj p) :
    p = restorePos := by
  unfold parse_indirect_object at h
  repeat' split at h
  all_goals simp_all

/-- C5 amended: for an identifier present in the cross-reference table,
index access is lazy, cached and identity-stable: the first access runs
`parse_indirect_object` at the indexed offset — here hypothesized to
succeed with a header identifier equal to the requested one, the
asserted condition, and with the cursor restored to its pre-access
position, which every successful parse does (see
`parse_indirect_object_restores`) — and stores the fresh instance; a
second access returns the very same cached instance with the state
unchanged; and after `delete`, which removes the identifier from the
cross-reference table as well as the cache, a further access fails with
`KeyError` rather than re-parsing from source. -/
theorem C5_lazy_cache_amended (fuel : Nat) (st : DocState) (ident addr : Nat)
    (obj : Cos)
    (h1 : alist_lookup st.cache ident = none)
    (h2 : alist_lookup st.xref ident = some addr)
    (h3 : parse_indirect_object fuel st.input st.pos addr =
      .ok (ident : Int) obj st.pos) :
    doc_get fuel st ident =
      .ok st.nextInstance obj
        ⟨st.input, st.pos, st.xref,
         (ident, st.nextInstance, obj) :: st.cache, st.nextInstance + 1⟩ ∧
    doc_get fuel
        ⟨st.input, st.pos, st.xref,
         (ident, st.nextInstance, obj) :: st.cache, st.nextInstance + 1⟩ ident =
      .ok st.nextInstance obj
        ⟨st.input, st.pos, st.xref,
         (ident, st.nextInstance, obj) :: st.cache, st.nextInstance + 1⟩ ∧
    doc_del ⟨st.input, st.pos, st.xref,
             (ident, st.nextInstance, obj) :: st.cache, st.nextInstance + 1⟩ ident =
      .ok ⟨st.input, st.pos, alist_remove st.xref ident,
           alist_remove st.cache ident, st.nextInstance + 1⟩ ∧
    doc_get fuel
        ⟨st.input, st.pos, alist_remove st.xref ident,
         alist_remove st.cache ident, st.nextInstance + 1⟩ ident = .keyError := by
  refine ⟨?_, ?_, ?_, ?_⟩
  · simp [doc_get, h1, h2, h3]
  · simp [doc_get, alist_lookup]
  · have hhead : alist_remove ((ident, st.nextInstance, obj) :: st.cache) ident
        = alist_remove st.cache ident := by
      simp [alist_remove, List.filter_cons, bne_self_eq_false]
    simp [doc_del, h2, hhead]
  · simp [doc_get, alist_lookup_remove]

/-- Witness for C5 amended on the concrete file `1 0 obj 42 endobj`
with the cursor at 3: identifier 1 at offset 0 parses to the integer 42
as instance 0, the second access returns instance 0 unchanged, and the
access after delete raises `KeyError`. -/
theorem C5_lazy_cache_amended_witness :
    doc_get 32 ⟨[49, 32, 48, 32, 111, 98, 106, 32, 52, 50, 32,
                 101, 110, 100, 111, 98, 106, 10], 3, [(1, 0)], [], 0⟩ 1 =
      .ok 0 (.integer 42)
        ⟨[49, 32, 48, 32, 111, 98, 106, 32, 52, 50, 32,
          101, 110, 100, 111, 98, 106, 10], 3, [(1, 0)], [(1, 0, .integer 42)], 1⟩ ∧
    doc_get 32 ⟨[49, 32, 48, 32, 111, 98, 106, 32, 52, 50, 32,
                 101, 110, 100, 111, 98, 106, 10], 3, [(1, 0)], [(1, 0, .integer 42)], 1⟩ 1 =
      .ok 0 (.integer 42)
        ⟨[49, 32, 48, 32, 111, 98, 106, 32, 52, 50, 32,
          101, 110, 100, 111, 98, 106, 10], 3, [(1, 0)], [(1, 0, .integer 42)], 1⟩ ∧
    doc_del ⟨[49, 32, 48, 32, 111, 98, 106, 32, 52, 50, 32,
              101, 110, 100, 111, 98, 106, 10], 3, [(1, 0)], [(1, 0, .integer 42)], 1⟩ 1 =
      .ok ⟨[49, 32, 48, 32, 111, 98, 106, 32, 52, 50, 32,
            101, 110, 100, 111, 98, 106, 10], 3, [], [], 1⟩ ∧
    doc_get 32 ⟨[49, 32, 48, 32, 111, 98, 106, 32, 52, 50, 32,
                 101, 110, 100, 111, 98, 106, 10], 3, [], [], 1⟩ 1 = .keyError := by
  have h := C5_lazy_cache_amended 32
    ⟨[49, 32, 48, 32, 111, 98, 106, 32, 52, 50, 32,
      101, 110, 100, 111, 98, 106, 10], 3, [(1, 0)], [], 0⟩ 1 0 (.integer 42)
    (by decide) (by decide) (by decide)
  exact h

/-- C6: the claim asserts that the decoded bytes of a literal string
with nested balanced parentheses preserve the parenthesis bytes exactly.
The reader indeed terminates only on the unescaped unbalanced `)` (the
whole input `a(b)c)` is consumed through position 6), but the source
counts unescaped balanced parentheses in `parenthesis_level` without
appending them, so `a(b)c)` decodes to `abc` with the interior `(` and
`)` bytes dropped, not to `a(b)c`. -/
theorem C6_balanced_parens_dropped :
    read_string 16 [97, 40, 98, 41, 99, 41] 0 = .ok [97, 98, 99] 6 ∧
    read_string 16 [97, 40, 98, 41, 99, 41] 0 ≠ .ok [97, 40, 98, 41, 99] 6 := by decide

/-- The `read_string` loop at end of input consumes the empty read as an
ordinary byte (appending nothing) and never terminates. -/
theorem read_string_loop_stuck_at_eof (acc : List Nat) :
    ∀ fuel, read_string_loop fuel [97] 1 acc false 0 = .nofuel := by
  intro fuel
  induction fuel with
  | zero => rfl
  | succ f ih => simpa [read_string_loop, read1] using ih

/-- C7: the claim asserts that every short or empty read is detected and
converted to a fatal parse error.  The empty read at end of input is
instead a member of every bytes class (Python substring membership) and
matches no terminator, so `jump_to_next_line` past the last line,
`eat_whitespace` at end of input, and `read_string` on a literal string
with no closing parenthesis all loop forever: no fuel suffices. -/
theorem C7_truncated_input_hangs :
    (∀ fuel, jump_to_next_line fuel [] 0 = none) ∧
    (∀ fuel, eat_whitespace fuel [] 0 = none) ∧
    (∀ fuel, read_string fuel [97] 0 = .nofuel) := by
  refine ⟨?_, ?_, ?_⟩
  · intro fuel
    induction fuel with
    | zero => rfl
    | succ f ih => simpa [jump_to_next_line, read1] using ih
  · intro fuel
    induction fuel with
    | zero => rfl
    | succ f ih => simpa [eat_whitespace, read1, inBytes] using ih
  · intro fuel
    cases fuel with
    | zero => rfl
    | succ f =>
      have h := read_string_loop_stuck_at_eof [97] f
      simpa [read_string, read_string_loop, read1, escapeChars] using h

set_option maxRecDepth 10000 in
/-- C8 amended: inside a literal string a backslash followed by one to
three octal digits decodes to exactly one byte of the octal value
whenever that value is at most 255 (always, for one or two digits);
three-digit escapes whose value exceeds 255 do not wrap modulo 256 — see
the counterexample. -/
theorem C8_octal_escape_amended :
    (∀ a : Fin 8, read_string 16 [92, 48 + a.val, 41] 0 = .ok [a.val] 3) ∧
    (∀ a b : Fin 8,
      read_string 16 [92, 48 + a.val, 48 + b.val, 41] 0 = .ok [8 * a.val + b.val] 4) ∧
    (∀ a b c : Fin 8, 64 * a.val + 8 * b.val + c.val ≤ 255 →
      read_string 16 [92, 48 + a.val, 48 + b.val, 48 + c.val, 41] 0 =
        .ok [64 * a.val + 8 * b.val + c.val] 5) := by decide

/-- Witness for C8 amended at the example of the claim: the escape
`\101` decodes to the single byte 0x41. -/
theorem C8_octal_escape_amended_witness :
    read_string 16 [92, 49, 48, 49, 41] 0 = .ok [65] 5 :=
  C8_octal_escape_amended.2.2 1 0 1 (by decide)

/-- C8 counterexample: the claim asserts the decoded byte is the octal
value modulo 256 for every one-to-three-digit octal escape, so `\400`
(value 256) should decode to the byte 0.  The source passes the value to
`struct.pack("B", ...)`, which raises `struct.error` above 255. -/
theorem C8_octal_400_counterexample :
    read_string 16 [92, 52, 48, 48, 41] 0 = .err .structError ∧
    read_string 16 [92, 52, 48, 48, 41] 0 ≠ .ok [0] 5 := by decide

/-- C9 counterexample: the claim asserts that a free record whose
generation field does not read as exactly 65535 raises the malformed-
record error, and that in-use records have their offset recorded.  A
free record whose generation bytes are `xxxxx` does not read as 65535,
yet `int` raises `ValueError`, which the subsection loop catches as the
natural end of the table: no error is raised.  Likewise an in-use record
whose offset bytes do not parse ends the loop with nothing recorded. -/
theorem C9_unparseable_field_counterexample :
    parse_xref_record
      [48, 48, 48, 48, 48, 48, 48, 48, 48, 48, 32,
       120, 120, 120, 120, 120, 32, 102, 32, 32] = .valueError ∧
    parse_xref_record
      [48, 48, 48, 48, 48, 48, 48, 48, 48, 48, 32,
       120, 120, 120, 120, 120, 32, 102, 32, 32] ≠ .assertError ∧
    pyInt [120, 120, 120, 120, 120] ≠ some 65535 ∧
    parse_xref_record
      [120, 120, 120, 120, 120, 120, 120, 120, 120, 120, 32,
       48, 48, 48, 48, 48, 32, 110, 32, 32] = .valueError ∧
    parse_xref_records 5
      [[120, 120, 120, 120, 120, 120, 120, 120, 120, 120, 32,
        48, 48, 48, 48, 48, 32, 110, 32, 32]] [] = .ok [] := by decide

/-- C9 amended: for a plain-table record whose generation field parses
as an integer, the free marker `f` raises the assertion error exactly
when the generation differs from 65535 and records no offset when it
equals 65535; an in-use record whose offset and generation fields both
parse as integers has its offset recorded.  Fields that fail to parse
raise `ValueError`, which the subsection loop treats as the end of the
subsections (see the counterexample). -/
theorem C9_xref_record_amended :
    (∀ (row : List Nat) (g : Int), row[17]? = some 102 →
      pyInt ((row.drop 11).take 5) = some g →
      parse_xref_record row = (if g = 65535 then .free else .assertError)) ∧
    (∀ (row : List Nat) (a g : Int), row[17]? = some 110 →
      pyInt (row.take 10) = some a → pyInt ((row.drop 11).take 5) = some g →
      parse_xref_record row = .entry a) ∧
    (∀ (first : Nat) (row : List Nat) (g : Int), row[17]? = some 102 →
      pyInt ((row.drop 11).take 5) = some g → g = 65535 →
      parse_xref_records first [row] [] = .ok []) ∧
    (∀ (first : Nat) (row : List Nat) (a g : Int), row[17]? = some 110 →
      pyInt (row.take 10) = some a → pyInt ((row.drop 11).take 5) = some g →
      parse_xref_records first [row] [] = .ok [(first, a)]) := by
  refine ⟨?_, ?_, ?_, ?_⟩
  · intro row g h17 hg
    simp [parse_xref_record, h17, hg]
  · intro row a g h17 ha hg
    simp [parse_xref_record, h17, ha, hg]
  · intro first row g h17 hg hg65
    simp [parse_xref_records, parse_xref_record, h17, hg, hg65]
  · intro first row a g h17 ha hg
    simp [parse_xref_records, parse_xref_record, h17, ha, hg]

/-- Witness for C9 amended on concrete 20-byte records: a free record
with generation 65535, a free record with generation 64 (assertion
error), and an in-use record at offset 17 recorded for identifier 3. -/
theorem C9_xref_record_amended_witness :
    parse_xref_record
      [48, 48, 48, 48, 48, 48, 48, 48, 49, 55, 32,
       54, 53, 53, 51, 53, 32, 102, 32, 32] = .free ∧
    parse_xref_record
      [48, 48, 48, 48, 48, 48, 48, 48, 49, 55, 32,
       48, 48, 48, 54, 52, 32, 102, 32, 32] = .assertError ∧
    parse_xref_record
      [48, 48, 48, 48, 48, 48, 48, 48, 49, 55, 32,
       48, 48, 48, 48, 48, 32, 110, 32, 32] = .entry 17 ∧
    parse_xref_records 3
      [[48, 48, 48, 48, 48, 48, 48, 48, 49, 55, 32,
        48, 48, 48, 48, 48, 32, 110, 32, 32]] [] = .ok [(3, 17)] := by
  have h := C9_xref_record_amended
  refine ⟨?_, ?_, ?_, ?_⟩
  · have h1 := h.1
      [48, 48, 48, 48, 48, 48, 48, 48, 49, 55, 32,
       54, 53, 53, 51, 53, 32, 102, 32, 32] 65535 (by decide) (by decide)
    simpa using h1
  · have h1 := h.1
      [48, 48, 48, 48, 48, 48, 48, 48, 49, 55, 32,
       48, 48, 48, 54, 52, 32, 102, 32, 32] 64 (by decide) (by decide)
    simpa using h1
  · exact h.2.1
      [48, 48, 48, 48, 48, 48, 48, 48, 49, 55, 32,
       48, 48, 48, 48, 48, 32, 110, 32, 32] 17 0 (by decide) (by decide) (by decide)
  · exact h.2.2.2 3
      [48, 48, 48, 48, 48, 48, 48, 48, 49, 55, 32,
       48, 48, 48, 48, 48, 32, 110, 32, 32] 17 0 (by decide) (by decide) (by decide)

/-- C10 counterexample: the claim asserts that `next_token` invoked at
end of input treats the empty read as a terminating byte and pushes back
with `seek(-1)`, moving the cursor to one byte before end of input.  On
the one-byte input with the cursor already at end of input, `next_token`
instead returns an empty token with the cursor unchanged at end of
input: the empty read satisfies the delimiter-or-whitespace membership
test, whose branch performs no seek. -/
theorem C10_eof_read_counterexample :
    next_token 8 [97] 1 = some ([], 1) ∧ next_token 8 [97] 1 ≠ some ([], 0) := by decide

set_option maxRecDepth 10000 in
/-- C10 amended: `eat_whitespace` invoked at end of input never
terminates, because the empty read tests as a member of the whitespace
bytes; `next_token` invoked at end of input returns an empty token with
the cursor unchanged; the `seek(-1)` pushback on an empty read happens
when end of input is reached while scanning a token already begun,
moving the cursor to one byte before end of input and un-reading the
byte already consumed into the token. -/
theorem C10_eof_read_amended :
    (∀ (fuel : Nat) (input : List Nat) (pos : Nat), input.length ≤ pos →
      eat_whitespace fuel input pos = none) ∧
    (∀ (fuel : Nat) (input : List Nat) (pos : Nat), input.length ≤ pos →
      next_token fuel input pos = some ([], pos)) ∧
    (∀ c : Fin 256, delimWs.contains c.val = false → c.val ≠ 60 → c.val ≠ 62 →
      next_token 4 [c.val] 0 = some ([c.val], 0)) := by
  refine ⟨?_, ?_, ?_⟩
  · intro fuel
    induction fuel with
    | zero => intro input pos _; rfl
    | succ f ih =>
      intro input pos h
      have hnil : input[pos]? = none := List.getElem?_eq_none h
      simpa [eat_whitespace, read1, hnil, inBytes] using ih input pos h
  · intro fuel input pos h
    have hnil : input[pos]? = none := List.getElem?_eq_none h
    simp [next_token, read1, hnil]
  · decide

/-- Witness for C10 amended: at end of the one-byte input `a`, skipping
whitespace exhausts any fuel and taking a token returns the empty token
in place; from the start of the one-byte input `A`, the token is `A`
with the cursor pushed back to one byte before end of input. -/
theorem C10_eof_read_amended_witness :
    eat_whitespace 5 [97] 1 = none ∧ next_token 5 [97] 1 = some ([], 1) ∧
    next_token 4 [65] 0 = some ([65], 0) :=
  ⟨C10_eof_read_amended.1 5 [97] 1 (by decide),
   C10_eof_read_amended.2.1 5 [97] 1 (by decide),
   C10_eof_read_amended.2.2 65 (by decide) (by decide) (by decide)⟩

end Pdf
